import Mathlib

/-!
Shallow embedding of `src/lib/libfossscheduler.c` (FOSSology agent-side
scheduler protocol library).

Modelling conventions:
* The process-wide globals `items_processed`, `buffer`, `valid`, `found`,
  `verbose` become the fields of `AgentState`, threaded explicitly.
* The inbound stream (`stdin` read with `fgets`) is a `List String`; each
  element is one newline-terminated line record, held without its trailing
  newline character.  An empty list is end-of-file.
* The outbound stream (`stdout`) is a `List String` of the whole lines
  written (each `fprintf(stdout, "...\n", ...)` appends one element).
* `strncmp(s, lit, strlen lit) == 0` becomes character-list prefix
  matching (`strncmpPref`); C's `atoi` is modelled character by character
  (whitespace skip, optional sign, leading digit run, 0 on no digits).
  `atoi(&buffer[8])` on a line record `l` held without its newline is
  `atoi (l.data.drop 8)`: if the record is shorter than 8 characters the
  C pointer lands on the terminating newline or NUL and `atoi` yields 0,
  which is exactly `atoi []`.
* `exit(0)` in `fo_scheduler_disconnect` is modelled by returning the
  exit status as data; the SIGALRM plumbing (`signal`, `alarm`) carries no
  protocol data and is not modelled.
-/

/-- The agent-connection globals of `libfossscheduler.c`:
`items_processed`, `buffer`, `valid`, `found`, `verbose`. -/
structure AgentState where
  items_processed : Int
  buffer : String
  valid : Bool
  found : Bool
  verbose : Int
deriving Repr, DecidableEq

/-- Character-list prefix test: `strncmpPref p s = true` iff `p` is a prefix
of `s`.  Models `strncmp(s, p, strlen p) == 0` on NUL-terminated C strings. -/
def strncmpPref : List Char → List Char → Bool
  | [], _ => true
  | _ :: _, [] => false
  | p :: ps, c :: cs => p == c && strncmpPref ps cs

/-- `strncmp(s, lit, strlen lit) == 0` at the `String` level. -/
def strncmpEq (s lit : String) : Bool :=
  strncmpPref lit.data s.data

/-- The whitespace set of C's `isspace` (used by `atoi`). -/
def isSpaceC (c : Char) : Bool :=
  c == ' ' || c == '\t' || c == '\n' || c == '\r' || c == '\x0b' || c == '\x0c'

/-- Value of a run of decimal digit characters, most significant first. -/
def digitsToNat (ds : List Char) : Nat :=
  ds.foldl (fun a c => 10 * a + (c.toNat - 48)) 0

/-- C `atoi`: skip whitespace, optional sign, value of the leading digit
run; 0 when no digits follow. -/
def atoi (cs : List Char) : Int :=
  let t := cs.dropWhile isSpaceC
  match t with
  | '-' :: u => - Int.ofNat (digitsToNat (u.takeWhile Char.isDigit))
  | '+' :: u => Int.ofNat (digitsToNat (u.takeWhile Char.isDigit))
  | _ => Int.ofNat (digitsToNat (t.takeWhile Char.isDigit))

/-- The version identifier: the `SVN_REV` fallback defined in the source. -/
def SVN_REV : String := "SVN_REV Unknown"

/-- `fo_heartbeat()`: prints `HEART: <items_processed>` and flushes.  It
reads the counter and does not modify the agent state (the `alarm` re-arm
carries no data).  Result: (unchanged state, outbound stream). -/
def fo_heartbeat (st : AgentState) (out : List String) :
    AgentState × List String :=
  (st, out ++ ["HEART: " ++ toString st.items_processed])

/-- `fo_scheduler_heart(i)`: `items_processed += i`. -/
def fo_scheduler_heart (i : Int) (st : AgentState) : AgentState :=
  { st with items_processed := st.items_processed + i }

/-- Result of `fo_scheduler_connect`: the updated `*argc`, `argv`, agent
state and outbound stream. -/
structure ConnectRes where
  argc : Nat
  argv : List String
  st : AgentState
  out : List String
deriving Repr, DecidableEq

/-- `fo_scheduler_connect(argc, argv)`: sets `found = 0`; if
`argv[argc-1]` equals `"--scheduler_start"`, prints the version line,
decrements `*argc`, NULLs the last argument slot and sets `found = 1`;
then unconditionally zeroes `items_processed`, `buffer`, `valid`,
`verbose`; finally, if `found`, prints `OK` and arms the heartbeat. -/
def fo_scheduler_connect (argc : Nat) (argv : List String)
    (_st : AgentState) (out : List String) : ConnectRes :=
  if argv.getD (argc - 1) "" = "--scheduler_start" then
    { argc := argc - 1
      argv := argv.take (argc - 1)
      st := { items_processed := 0, buffer := "", valid := false,
              found := true, verbose := 0 }
      out := out ++ [SVN_REV, "OK"] }
  else
    { argc := argc
      argv := argv
      st := { items_processed := 0, buffer := "", valid := false,
              found := false, verbose := 0 }
      out := out }

/-- Result of `fo_scheduler_disconnect`: final outbound stream and the
process exit status (`exit(0)` modelled as data; the call never returns). -/
structure DisconnectRes where
  out : List String
  exitCode : Nat
deriving Repr, DecidableEq

/-- `fo_scheduler_disconnect()`: prints `BYE` iff `found`, then `exit(0)`. -/
def fo_scheduler_disconnect (st : AgentState) (out : List String) :
    DisconnectRes :=
  { out := if st.found then out ++ ["BYE"] else out
    exitCode := 0 }

/-- Result of `fo_scheduler_next`: the returned `char*` (`none` for NULL),
the agent state, the remaining inbound stream, the outbound stream. -/
structure NextRes where
  ret : Option String
  st : AgentState
  inp : List String
  out : List String
deriving Repr, DecidableEq

/-- `fo_scheduler_next()`: reads one line into `buffer`; on EOF or a
`CLOSE`-prefixed line clears `valid` and returns NULL; on `END` prints
`OK` and recurses; on `VERBOSE` sets `verbose = atoi(&buffer[8])`, clears
`valid` and recurses; on `VERSION` prints the version line, clears `valid`
and recurses; otherwise marks `valid` and returns the buffer. -/
def fo_scheduler_next (st : AgentState) : List String → List String → NextRes
  | [], out => ⟨none, { st with valid := false }, [], out⟩
  | line :: rest, out =>
    if strncmpEq line "CLOSE" then
      ⟨none, { st with buffer := line, valid := false }, rest, out⟩
    else if strncmpEq line "END" then
      fo_scheduler_next { st with buffer := line } rest (out ++ ["OK"])
    else if strncmpEq line "VERBOSE" then
      fo_scheduler_next
        { st with buffer := line, verbose := atoi (line.data.drop 8),
                  valid := false } rest out
    else if strncmpEq line "VERSION" then
      fo_scheduler_next { st with buffer := line, valid := false } rest
        (out ++ [SVN_REV])
    else
      ⟨some line, { st with buffer := line, valid := true }, rest, out⟩

/-- `fo_scheduler_current()`: the buffer if `valid`, else NULL. -/
def fo_scheduler_current (st : AgentState) : Option String :=
  if st.valid then some st.buffer else none

/-- Classification of one inbound line record, §3 of the design: the
prefix checks in the priority order of `fo_scheduler_next`. -/
inductive LineClass where
  | closeCmd : LineClass
  | endCmd : LineClass
  | verboseCmd : Int → LineClass
  | versionCmd : LineClass
  | dataLine : String → LineClass
deriving Repr, DecidableEq

/-- Classify one line by the prefix checks of `fo_scheduler_next`, in the
source's priority order. -/
def classify (line : String) : LineClass :=
  if strncmpEq line "CLOSE" then .closeCmd
  else if strncmpEq line "END" then .endCmd
  else if strncmpEq line "VERBOSE" then .verboseCmd (atoi (line.data.drop 8))
  else if strncmpEq line "VERSION" then .versionCmd
  else .dataLine line

/-- Whether a classification is the data case. -/
def LineClass.isData : LineClass → Bool
  | .dataLine _ => true
  | _ => false

/-- Result of processing a single inbound line (one unfolding of the body
of `fo_scheduler_next`): `done = some r` when the call returns `r` now,
`done = none` when it recurses. -/
structure StepRes where
  done : Option (Option String)
  st : AgentState
  out : List String
deriving Repr, DecidableEq

/-- One iteration of `fo_scheduler_next`'s body on one `fgets` result
(`none` = EOF): exactly the side effects the source performs for that
line before either returning or re-invoking itself. -/
def readLineStep (st : AgentState) (lineRead : Option String)
    (out : List String) : StepRes :=
  match lineRead with
  | none => ⟨some none, { st with valid := false }, out⟩
  | some line =>
    if strncmpEq line "CLOSE" then
      ⟨some none, { st with buffer := line, valid := false }, out⟩
    else if strncmpEq line "END" then
      ⟨none, { st with buffer := line }, out ++ ["OK"]⟩
    else if strncmpEq line "VERBOSE" then
      ⟨none,
       { st with buffer := line, verbose := atoi (line.data.drop 8), valid := false },
       out⟩
    else if strncmpEq line "VERSION" then
      ⟨none, { st with buffer := line, valid := false }, out ++ [SVN_REV]⟩
    else
      ⟨some (some line), { st with buffer := line, valid := true }, out⟩

/-- A control line that `fo_scheduler_next` consumes without returning:
`END`, `VERBOSE` or `VERSION` by prefix. -/
def isCtrl (l : String) : Bool :=
  strncmpEq l "END" || strncmpEq l "VERBOSE" || strncmpEq l "VERSION"

/-! ## Helper lemmas -/

/-- `strncmpPref` is list prefix. -/
lemma strncmpPref_iff (p cs : List Char) : strncmpPref p cs = true ↔ p <+: cs := by
  induction p generalizing cs with
  | nil => simp [strncmpPref]
  | cons a as ih =>
    cases cs with
    | nil => simp [strncmpPref]
    | cons c t => simp [strncmpPref, List.cons_prefix_cons, ih]

/-- Two prefix literals neither of which is a prefix of the other cannot
both match the same line. -/
lemma strncmpEq_excl {l p q : String} (hpq : ¬ (p.data <+: q.data) ∧ ¬ (q.data <+: p.data))
    (h : strncmpEq l p = true) : strncmpEq l q = false := by
  rw [strncmpEq, strncmpPref_iff] at h
  by_contra hq
  rw [Bool.not_eq_false, strncmpEq, strncmpPref_iff] at hq
  rcases List.prefix_or_prefix_of_prefix h hq with hh | hh
  · exact hpq.1 hh
  · exact hpq.2 hh

lemma end_not_close {l : String} (h : strncmpEq l "END" = true) :
    strncmpEq l "CLOSE" = false :=
  strncmpEq_excl (by decide) h

lemma verbose_not_close {l : String} (h : strncmpEq l "VERBOSE" = true) :
    strncmpEq l "CLOSE" = false :=
  strncmpEq_excl (by decide) h

lemma verbose_not_end {l : String} (h : strncmpEq l "VERBOSE" = true) :
    strncmpEq l "END" = false :=
  strncmpEq_excl (by decide) h

lemma version_not_close {l : String} (h : strncmpEq l "VERSION" = true) :
    strncmpEq l "CLOSE" = false :=
  strncmpEq_excl (by decide) h

lemma version_not_end {l : String} (h : strncmpEq l "VERSION" = true) :
    strncmpEq l "END" = false :=
  strncmpEq_excl (by decide) h

lemma version_not_verbose {l : String} (h : strncmpEq l "VERSION" = true) :
    strncmpEq l "VERBOSE" = false :=
  strncmpEq_excl (by decide) h

/-! ## Claim theorems -/

/-- Claim C1: for every inbound line whose prefix matches none of `CLOSE`,
`END`, `VERBOSE`, `VERSION` (case-sensitive), `fo_scheduler_next` returns
that line verbatim as data — consuming exactly it, writing nothing
outbound, marking the buffer valid — and a subsequent
`fo_scheduler_current` returns the same text. -/
theorem C1_data_line_verbatim (st : AgentState) (line : String)
    (rest out : List String)
    (h1 : strncmpEq line "CLOSE" = false) (h2 : strncmpEq line "END" = false)
    (h3 : strncmpEq line "VERBOSE" = false)
    (h4 : strncmpEq line "VERSION" = false) :
    fo_scheduler_next st (line :: rest) out =
      ⟨some line, { st with buffer := line, valid := true }, rest, out⟩ ∧
    fo_scheduler_current { st with buffer := line, valid := true } =
      some line := by
  constructor
  · simp [fo_scheduler_next, h1, h2, h3, h4]
  · simp [fo_scheduler_current]

/-- Witness for C1 at the concrete data line `"foo.c"`. -/
theorem C1_data_line_verbatim_witness :
    fo_scheduler_next ⟨0, "", false, true, 0⟩ ["foo.c"] [] =
      ⟨some "foo.c", ⟨0, "foo.c", true, true, 0⟩, [], []⟩ ∧
    fo_scheduler_current ⟨0, "foo.c", true, true, 0⟩ = some "foo.c" :=
  C1_data_line_verbatim ⟨0, "", false, true, 0⟩ "foo.c" [] []
    (by decide) (by decide) (by decide) (by decide)

/-- Claim C2: at end-of-file, and on a `CLOSE`-prefixed line,
`fo_scheduler_next` returns NULL, clears the valid flag, writes nothing
outbound, and a following `fo_scheduler_current` returns NULL — the two
conditions are handled identically with no error reported. -/
theorem C2_close_eof_end_of_work (st : AgentState) (line : String)
    (rest out : List String) (h : strncmpEq line "CLOSE" = true) :
    fo_scheduler_next st [] out = ⟨none, { st with valid := false }, [], out⟩ ∧
    fo_scheduler_current { st with valid := false } = none ∧
    fo_scheduler_next st (line :: rest) out =
      ⟨none, { st with buffer := line, valid := false }, rest, out⟩ ∧
    fo_scheduler_current { st with buffer := line, valid := false } = none := by
  refine ⟨by simp [fo_scheduler_next], by simp [fo_scheduler_current],
    by simp [fo_scheduler_next, h], by simp [fo_scheduler_current]⟩

/-- Witness for C2 at the concrete line `"CLOSE"`. -/
theorem C2_close_eof_end_of_work_witness :
    fo_scheduler_next ⟨0, "old", true, true, 0⟩ [] [] =
      ⟨none, ⟨0, "old", false, true, 0⟩, [], []⟩ ∧
    fo_scheduler_current ⟨0, "old", false, true, 0⟩ = none ∧
    fo_scheduler_next ⟨0, "old", true, true, 0⟩ ["CLOSE"] [] =
      ⟨none, ⟨0, "CLOSE", false, true, 0⟩, [], []⟩ ∧
    fo_scheduler_current ⟨0, "CLOSE", false, true, 0⟩ = none :=
  C2_close_eof_end_of_work ⟨0, "old", true, true, 0⟩ "CLOSE" [] [] (by decide)

/-- Claim C3: on the inbound lines `END` then `baz.txt`, one call to
`fo_scheduler_next` appends exactly one `OK` line to the outbound stream
and returns `baz.txt`; the `END` line is never returned to the caller
(the final buffer and return value are `baz.txt`). -/
theorem C3_end_acked_then_data (st : AgentState) (rest out : List String) :
    fo_scheduler_next st ("END" :: "baz.txt" :: rest) out =
      ⟨some "baz.txt", { st with buffer := "baz.txt", valid := true }, rest,
        out ++ ["OK"]⟩ := by
  have hc : strncmpEq "END" "CLOSE" = false := by decide
  have he : strncmpEq "END" "END" = true := by decide
  have h1 : strncmpEq "baz.txt" "CLOSE" = false := by decide
  have h2 : strncmpEq "baz.txt" "END" = false := by decide
  have h3 : strncmpEq "baz.txt" "VERBOSE" = false := by decide
  have h4 : strncmpEq "baz.txt" "VERSION" = false := by decide
  simp [fo_scheduler_next, hc, he, h1, h2, h3, h4]

/-- Claim C7: `fo_scheduler_disconnect` writes a `BYE` line iff the
session is scheduler-connected (`found`), and in every case yields the
process exit status 0 (the `exit(0)` that never returns to the caller). -/
theorem C7_disconnect_bye_iff_found (st : AgentState) (out : List String) :
    ((fo_scheduler_disconnect st out).out = out ++ ["BYE"] ↔ st.found = true) ∧
    (st.found = false → (fo_scheduler_disconnect st out).out = out) ∧
    (fo_scheduler_disconnect st out).exitCode = 0 := by
  cases hf : st.found <;> simp [fo_scheduler_disconnect, hf]

/-- Witness for C7 in both the connected and the standalone state. -/
theorem C7_disconnect_bye_iff_found_witness :
    ((fo_scheduler_disconnect ⟨0, "", false, true, 0⟩ []).out = [] ++ ["BYE"] ↔
      (⟨0, "", false, true, 0⟩ : AgentState).found = true) ∧
    ((⟨0, "", false, false, 0⟩ : AgentState).found = false →
      (fo_scheduler_disconnect ⟨0, "", false, false, 0⟩ []).out = []) ∧
    (fo_scheduler_disconnect ⟨0, "", false, false, 0⟩ []).exitCode = 0 :=
  ⟨(C7_disconnect_bye_iff_found ⟨0, "", false, true, 0⟩ []).1,
   (C7_disconnect_bye_iff_found ⟨0, "", false, false, 0⟩ []).2.1,
   (C7_disconnect_bye_iff_found ⟨0, "", false, false, 0⟩ []).2.2⟩

/-- Claim C10: `fo_scheduler_connect` resets the accumulated item counter,
the verbosity level, the line buffer and the data-valid flag to zero/empty
defaults unconditionally, in the standalone branch just as in the
scheduler-connected branch, whatever the prior session state. -/
theorem C10_connect_resets_state (argc : Nat) (argv : List String)
    (st : AgentState) (out : List String) :
    (fo_scheduler_connect argc argv st out).st.items_processed = 0 ∧
    (fo_scheduler_connect argc argv st out).st.buffer = "" ∧
    (fo_scheduler_connect argc argv st out).st.valid = false ∧
    (fo_scheduler_connect argc argv st out).st.verbose = 0 := by
  unfold fo_scheduler_connect
  split <;> simp

/-- Claim C6: `fo_scheduler_heart i` adds `i` to the accumulated item
counter; after `fo_scheduler_heart 3` then `fo_scheduler_heart 4` from a
zero counter, a heartbeat fire reports `HEART: 7` and leaves the state
unchanged, and a further heartbeat with no intervening
`fo_scheduler_heart` reports the same cumulative 7. -/
theorem C6_heart_accumulates :
    (∀ (st : AgentState) (i : Int),
      (fo_scheduler_heart i st).items_processed = st.items_processed + i) ∧
    (∀ (st : AgentState) (out : List String), st.items_processed = 0 →
      (fo_heartbeat (fo_scheduler_heart 4 (fo_scheduler_heart 3 st)) out).2 =
        out ++ ["HEART: 7"] ∧
      (fo_heartbeat (fo_scheduler_heart 4 (fo_scheduler_heart 3 st)) out).1 =
        fo_scheduler_heart 4 (fo_scheduler_heart 3 st) ∧
      (fo_heartbeat
        (fo_heartbeat (fo_scheduler_heart 4 (fo_scheduler_heart 3 st)) out).1
        (fo_heartbeat (fo_scheduler_heart 4 (fo_scheduler_heart 3 st)) out).2).2 =
        out ++ ["HEART: 7", "HEART: 7"]) := by
  constructor
  · intro st i
    simp [fo_scheduler_heart]
  · intro st out h0
    have h7 : (fo_scheduler_heart 4 (fo_scheduler_heart 3 st)).items_processed = 7 := by
      simp [fo_scheduler_heart, h0]
    have hs : ("HEART: " ++ toString (7 : Int)) = "HEART: 7" := rfl
    refine ⟨by simp [fo_heartbeat, h7, hs], rfl, by simp [fo_heartbeat, h7, hs]⟩

/-- Witness for C6 from the freshly connected state (counter 0). -/
theorem C6_heart_accumulates_witness :
    (fo_scheduler_heart 5 (⟨0, "", false, true, 0⟩ : AgentState)).items_processed =
      (⟨0, "", false, true, 0⟩ : AgentState).items_processed + 5 ∧
    (fo_heartbeat (fo_scheduler_heart 4 (fo_scheduler_heart 3 ⟨0, "", false, true, 0⟩)) []).2 =
      [] ++ ["HEART: 7"] :=
  ⟨C6_heart_accumulates.1 ⟨0, "", false, true, 0⟩ 5,
   (C6_heart_accumulates.2 ⟨0, "", false, true, 0⟩ [] rfl).1⟩

/-- Claim C5: when the final argument is the start sentinel
`--scheduler_start`, `fo_scheduler_connect` writes the version line and
then `OK` to the outbound stream, in that order, and hands downstream
parsing the argument list with that sentinel removed and the count
decremented by exactly one. -/
theorem C5_connect_with_sentinel (argc : Nat) (argv : List String)
    (st : AgentState) (out : List String)
    (hlen : argv.length = argc) (hpos : 0 < argc)
    (hsent : argv.getLast? = some "--scheduler_start") :
    fo_scheduler_connect argc argv st out =
      ⟨argc - 1, argv.dropLast, ⟨0, "", false, true, 0⟩,
        out ++ [SVN_REV, "OK"]⟩ ∧
    (argc - 1) + 1 = argc ∧
    argv.dropLast.length = argc - 1 := by
  have hget : argv.getD (argc - 1) "" = "--scheduler_start" := by
    rw [List.getD_eq_getElem?_getD, ← hlen, ← List.getLast?_eq_getElem? argv,
      hsent]
    rfl
  refine ⟨?_, by omega, by rw [List.length_dropLast, hlen]⟩
  rw [fo_scheduler_connect, if_pos hget, List.dropLast_eq_take, hlen]

/-- Witness for C5 at the concrete invocation
`agent --scheduler_start` (argc = 2). -/
theorem C5_connect_with_sentinel_witness :
    fo_scheduler_connect 2 ["agent", "--scheduler_start"]
        ⟨9, "junk", true, false, 3⟩ [] =
      ⟨2 - 1, ["agent", "--scheduler_start"].dropLast, ⟨0, "", false, true, 0⟩,
        [] ++ [SVN_REV, "OK"]⟩ ∧
    (2 - 1) + 1 = 2 ∧
    (["agent", "--scheduler_start"] : List String).dropLast.length = 2 - 1 :=
  C5_connect_with_sentinel 2 ["agent", "--scheduler_start"]
    ⟨9, "junk", true, false, 3⟩ [] rfl (by decide) rfl

/-- Claim C4: on a `VERBOSE`-prefixed line, `fo_scheduler_next` sets the
verbosity to the integer `atoi` parses from the suffix at offset 8,
invalidates the buffer, and re-invokes itself on the remaining stream
without returning that line; a suffix with no digit anywhere is coerced
to verbosity 0; concretely, on `VERBOSE 5` then `bar.txt` the verbosity
becomes 5 and the call returns `bar.txt`. -/
theorem C4_verbose_sets_verbosity :
    (∀ (st : AgentState) (line : String) (rest out : List String),
      strncmpEq line "VERBOSE" = true →
      fo_scheduler_next st (line :: rest) out =
        fo_scheduler_next
          { st with buffer := line, verbose := atoi (line.data.drop 8),
                    valid := false } rest out) ∧
    (∀ cs : List Char, (∀ c ∈ cs, c.isDigit = false) → atoi cs = 0) ∧
    ((fo_scheduler_next ⟨0, "", false, true, 0⟩ ["VERBOSE 5", "bar.txt"] []).st.verbose = 5 ∧
     (fo_scheduler_next ⟨0, "", false, true, 0⟩ ["VERBOSE 5", "bar.txt"] []).ret =
       some "bar.txt") := by
  refine ⟨?_, ?_, by decide, by decide⟩
  · intro st line rest out h
    simp [fo_scheduler_next, verbose_not_close h, verbose_not_end h, h]
  · intro cs h
    have hsub : ∀ c ∈ cs.dropWhile isSpaceC, c.isDigit = false :=
      fun c hc => h c ((List.dropWhile_sublist _).subset hc)
    have htw : ∀ u : List Char, (∀ c ∈ u, c.isDigit = false) →
        u.takeWhile Char.isDigit = [] := by
      intro u hu
      cases u with
      | nil => rfl
      | cons a v => simp [List.takeWhile_cons, hu a (by simp)]
    simp only [atoi]
    split
    · rename_i u heq
      have hu : ∀ c ∈ u, c.isDigit = false := by
        intro c hc
        exact hsub c (by rw [heq]; exact List.mem_cons_of_mem _ hc)
      rw [htw u hu]
      rfl
    · rename_i u heq
      have hu : ∀ c ∈ u, c.isDigit = false := by
        intro c hc
        exact hsub c (by rw [heq]; exact List.mem_cons_of_mem _ hc)
      rw [htw u hu]
      rfl
    · rw [htw _ hsub]
      rfl

/-- Witness for C4: the reduction on the concrete line `VERBOSE 5`, and
the coercion of the digit-free suffix of `VERBOSE abc` to 0. -/
theorem C4_verbose_sets_verbosity_witness :
    fo_scheduler_next ⟨0, "", false, true, 0⟩ ["VERBOSE 5", "bar.txt"] [] =
      fo_scheduler_next
        ⟨0, "VERBOSE 5", false, true, atoi ("VERBOSE 5".data.drop 8)⟩
        ["bar.txt"] [] ∧
    atoi " abc".data = 0 :=
  ⟨C4_verbose_sets_verbosity.1 ⟨0, "", false, true, 0⟩ "VERBOSE 5" ["bar.txt"] []
      (by decide),
   C4_verbose_sets_verbosity.2.1 " abc".data (by decide)⟩

/-- On a control line (`END`, `VERBOSE` or `VERSION` prefix),
`fo_scheduler_next` re-invokes itself on the remaining stream. -/
lemma next_ctrl_step (st : AgentState) (c : String) (rest out : List String)
    (h : isCtrl c = true) :
    ∃ st2 out2,
      fo_scheduler_next st (c :: rest) out = fo_scheduler_next st2 rest out2 := by
  rw [isCtrl, Bool.or_eq_true, Bool.or_eq_true] at h
  rcases h with (h | h) | h
  · exact ⟨{ st with buffer := c }, out ++ ["OK"],
      by simp [fo_scheduler_next, end_not_close h, h]⟩
  · exact ⟨{ st with buffer := c, verbose := atoi (c.data.drop 8), valid := false },
      out,
      by simp [fo_scheduler_next, verbose_not_close h, verbose_not_end h, h]⟩
  · exact ⟨{ st with buffer := c, valid := false }, out ++ [SVN_REV],
      by simp [fo_scheduler_next, version_not_close h, version_not_end h,
        version_not_verbose h, h]⟩

/-- Claim C9: a single `fo_scheduler_next` call consumes exactly the
maximal leading run of control lines (`END`, `VERBOSE`, `VERSION`) plus
the one further line that stops it (a data line or a `CLOSE` line), and
terminates; when the stream ends inside the control run it consumes the
whole stream.  The remaining inbound stream is `rest.drop 1`. -/
theorem C9_consumes_ctrl_run_plus_one (st : AgentState)
    (cs rest out : List String)
    (hctrl : ∀ l ∈ cs, isCtrl l = true)
    (hstop : ∀ l ∈ rest.take 1, isCtrl l = false) :
    (fo_scheduler_next st (cs ++ rest) out).inp = rest.drop 1 := by
  induction cs generalizing st out with
  | nil =>
    simp only [List.nil_append]
    cases rest with
    | nil => simp [fo_scheduler_next]
    | cons r rs =>
      have hr : isCtrl r = false := hstop r (by simp)
      rw [isCtrl, Bool.or_eq_false_iff, Bool.or_eq_false_iff] at hr
      obtain ⟨⟨h2, h3⟩, h4⟩ := hr
      by_cases h1 : strncmpEq r "CLOSE" = true
      · simp [fo_scheduler_next, h1]
      · rw [Bool.not_eq_true] at h1
        simp [fo_scheduler_next, h1, h2, h3, h4]
  | cons c cs ih =>
    have hc : isCtrl c = true := hctrl c (by simp)
    obtain ⟨st2, out2, heq⟩ := next_ctrl_step st c (cs ++ rest) out hc
    rw [List.cons_append, heq]
    exact ih st2 out2 (fun l hl => hctrl l (List.mem_cons_of_mem c hl))

/-- Witness for C9: the run `END`, `VERBOSE 2`, `VERSION` followed by the
data line `data.c` and one unread line. -/
theorem C9_consumes_ctrl_run_plus_one_witness :
    (fo_scheduler_next ⟨0, "", false, true, 0⟩
      (["END", "VERBOSE 2", "VERSION"] ++ ["data.c", "more"]) []).inp =
      (["data.c", "more"] : List String).drop 1 :=
  C9_consumes_ctrl_run_plus_one ⟨0, "", false, true, 0⟩
    ["END", "VERBOSE 2", "VERSION"] ["data.c", "more"] []
    (by decide) (by decide)

/-- Counterexample to claim C8 as stated: from a session state whose
valid flag is set — reachable by reading the data line `foo` from the
freshly connected state — reading the control line `END` leaves the
valid flag true, although `END` does not classify as data. -/
theorem C8_end_line_keeps_valid_counterexample :
    (readLineStep ⟨0, "", false, true, 0⟩ (some "foo") []).st =
      ⟨0, "foo", true, true, 0⟩ ∧
    (readLineStep ⟨0, "foo", true, true, 0⟩ (some "END") []).st.valid = true ∧
    (classify "END").isData = false := by
  decide

/-- Claim C8 (amended): after a single inbound line is read and handled,
end-of-file and the control lines `CLOSE`, `VERBOSE`, `VERSION`
immediately clear the valid flag and a data line sets it, but an `END`
line leaves the flag unchanged at its previous value; at the granularity
of complete `fo_scheduler_next` calls, the flag is true iff the call
returned data. -/
theorem C8_valid_flag_amended :
    (∀ (st : AgentState) (out : List String),
      (readLineStep st none out).st.valid = false) ∧
    (∀ (st : AgentState) (line : String) (out : List String),
      classify line = .closeCmd →
      (readLineStep st (some line) out).st.valid = false) ∧
    (∀ (st : AgentState) (line : String) (out : List String) (n : Int),
      classify line = .verboseCmd n →
      (readLineStep st (some line) out).st.valid = false) ∧
    (∀ (st : AgentState) (line : String) (out : List String),
      classify line = .versionCmd →
      (readLineStep st (some line) out).st.valid = false) ∧
    (∀ (st : AgentState) (line : String) (out : List String),
      (classify line).isData = true →
      (readLineStep st (some line) out).st.valid = true) ∧
    (∀ (st : AgentState) (line : String) (out : List String),
      classify line = .endCmd →
      (readLineStep st (some line) out).st.valid = st.valid) ∧
    (∀ (st : AgentState) (inp out : List String),
      (fo_scheduler_next st inp out).ret.isSome =
        (fo_scheduler_next st inp out).st.valid) := by
  refine ⟨fun st out => rfl, ?_, ?_, ?_, ?_, ?_, ?_⟩
  · intro st line out h
    rw [classify] at h
    rw [readLineStep]
    split_ifs at h ⊢
    all_goals simp_all [LineClass.isData]
  · intro st line out n h
    rw [classify] at h
    rw [readLineStep]
    split_ifs at h ⊢
    all_goals simp_all [LineClass.isData]
  · intro st line out h
    rw [classify] at h
    rw [readLineStep]
    split_ifs at h ⊢
    all_goals simp_all [LineClass.isData]
  · intro st line out h
    rw [classify] at h
    rw [readLineStep]
    split_ifs at h ⊢
    all_goals simp_all [LineClass.isData]
  · intro st line out h
    rw [classify] at h
    rw [readLineStep]
    split_ifs at h ⊢
    all_goals simp_all [LineClass.isData]
  · intro st inp out
    induction inp generalizing st out with
    | nil => simp [fo_scheduler_next]
    | cons l rest ih =>
      rw [fo_scheduler_next]
      split_ifs <;> first | simp | apply ih

/-- Witness for the amended C8: the flag transitions on the concrete
lines `CLOSE`, `VERBOSE 1`, `VERSION`, `foo` and `END`. -/
theorem C8_valid_flag_amended_witness :
    (readLineStep ⟨0, "x", true, true, 0⟩ (some "CLOSE") []).st.valid = false ∧
    (readLineStep ⟨0, "x", true, true, 0⟩ (some "VERBOSE 1") []).st.valid = false ∧
    (readLineStep ⟨0, "x", true, true, 0⟩ (some "VERSION") []).st.valid = false ∧
    (readLineStep ⟨0, "x", false, true, 0⟩ (some "foo") []).st.valid = true ∧
    (readLineStep ⟨0, "x", true, true, 0⟩ (some "END") []).st.valid =
      (⟨0, "x", true, true, 0⟩ : AgentState).valid :=
  ⟨C8_valid_flag_amended.2.1 ⟨0, "x", true, true, 0⟩ "CLOSE" [] (by decide),
   C8_valid_flag_amended.2.2.1 ⟨0, "x", true, true, 0⟩ "VERBOSE 1" [] 1 (by decide),
   C8_valid_flag_amended.2.2.2.1 ⟨0, "x", true, true, 0⟩ "VERSION" [] (by decide),
   C8_valid_flag_amended.2.2.2.2.1 ⟨0, "x", false, true, 0⟩ "foo" [] (by decide),
   C8_valid_flag_amended.2.2.2.2.2.1 ⟨0, "x", true, true, 0⟩ "END" [] (by decide)⟩
